import Mathlib

/-!
Shallow embedding of the website-uptime monitoring API
(src/main.py, src/schemas.py) and proofs about its behaviour.

Conventions of the embedding:
* Python strings are Lean `String`s (a `List Char` of code points, matching
  Python's code-point indexing for `len` and slicing).
* Python ints are unbounded, modelled as `Nat`/`Int`.
* The single outbound HTTP request (`requests.get` in `run_check`) is the
  only effectful / fallible operation inside the `try` block; its result is
  modelled as a `ProbeOutcome` parameter: either a received response
  (status code, body text, elapsed milliseconds) or an exception raised
  before any response, carrying the exception message `str(e)`.
  Every line after the `requests.get` call is pure computation on the
  buffered response and cannot raise.
* `requests.Response.__bool__` is `self.ok`, i.e. `status_code < 400`;
  this truthiness is modelled explicitly (`respTruthy`).
* The document store (`database.py`, imported by `src/main.py` but not
  part of `src/`) is modelled from the spec where needed; pymongo cursor
  operations (`sort`, `limit`, `find`) follow their documented semantics.
-/

namespace Monitor

/-- Python `str.lower()` restricted to the ASCII case mapping
(`Char.toLower` lowers exactly the upper-case ASCII letters). -/
def pyLower (s : String) : String := ⟨s.data.map Char.toLower⟩

/-- Python slicing `s[:n]`: the first `n` code points of `s`. -/
def pyTake (s : String) (n : Nat) : String := ⟨s.data.take n⟩

/-- Python substring test `needle in hay` on strings. -/
def pyIn (needle hay : String) : Bool := decide (needle.data <:+: hay.data)

/-- `requests.Response.__bool__`, i.e. `Response.ok`:
truthy iff `status_code < 400`. -/
def respTruthy (statusCode : Nat) : Bool := statusCode < 400

/-- Outcome of the single `requests.get(url, timeout=15)` call in
`run_check` (src/main.py line 163): either a response was received
(status code, decoded body `resp.text`, elapsed wall-clock milliseconds
`int((perf_counter()-start)*1000)`), or the call raised before any
response, with exception text `str(e)`. -/
inductive ProbeOutcome where
  | response (statusCode : Nat) (body : String) (elapsedMs : Nat)
  | failure (msg : String)
deriving DecidableEq

/-- The local variables of `run_check`'s probe section
(src/main.py lines 155-174) after the `try`/`except` completes. -/
structure ProbeResult where
  status_code : Option Nat
  is_up : Bool
  response_time_ms : Option Nat
  kw_matches : List String
  error : Option String
deriving DecidableEq

/-- src/main.py lines 155-174: the probe section of `run_check`.
All locals start as `None`/`False`/`[]`; on a received response the
status code, up-classification and keyword scan run; on an exception the
locals keep their initial values and `error = str(e)[:500]`, `is_up = False`.
Line 168: `content = resp.text.lower() if resp and resp.text else ""` —
note the truthiness of `resp` (status `< 400`) and of `resp.text`
(non-empty). Lines 169-171: `for kw in keywords: if kw and kw.lower() in
content: matches.append(kw)`. -/
def runProbe (keywords : List String) (outcome : ProbeOutcome) : ProbeResult :=
  match outcome with
  | .response s body ms =>
      let content := if respTruthy s && body ≠ "" then pyLower body else ""
      { status_code := some s
        is_up := decide (200 ≤ s ∧ s < 400)
        response_time_ms := some ms
        kw_matches := keywords.filter (fun kw => kw ≠ "" && pyIn (pyLower kw) content)
        error := none }
  | .failure msg =>
      { status_code := none
        is_up := false
        response_time_ms := none
        kw_matches := []
        error := some (pyTake msg 500) }

/-! ## Data model (src/schemas.py and the document store) -/

/-- src/schemas.py `Category`: name (2-100 chars) and optional color. -/
structure Category where
  name : String
  color : Option String
deriving DecidableEq

/-- A stored website document (src/schemas.py `Website` plus the
store-assigned identifier). `url` is a well-formed absolute URL
(pydantic `HttpUrl`); URL well-formedness is not at issue in any claim,
so the field carries the already-validated textual URL. -/
structure Website where
  id : String
  name : String
  url : String
  category_id : Option String
  keywords : List String
  interval_seconds : Int
  is_active : Bool
deriving DecidableEq

/-- src/schemas.py `CheckResult` (the persisted document body). -/
structure CheckResult where
  website_id : String
  status_code : Option Nat
  is_up : Bool
  response_time_ms : Option Nat
  keyword_matches : List String
  error : Option String
deriving DecidableEq

/-- A persisted check-result document: the `CheckResult` body plus the
store-assigned unique identifier and creation timestamp. -/
structure StoredCheck where
  id : Nat
  created_at : Nat
  result : CheckResult
deriving DecidableEq

/-- The document store state: the three collections, plus the
identifier/timestamp source. Timestamps are modelled by a monotonic
clock so distinct insertions get distinct `created_at` values. -/
structure Store where
  categories : List Category
  websites : List Website
  checks : List StoredCheck
  nextId : Nat
  clock : Nat
deriving DecidableEq

/-- Modelled from the spec: `database.create_document` for the
`"checkresult"` collection (`database.py` is imported by src/main.py but
is not under src/). Per spec §2/§3 the store assigns a unique identifier
and the persistence-time `created_at` timestamp and durably stores the
document; the comment at src/main.py line 201 confirms "our helper sets
timestamps". Returns the stored document and the new store state. -/
def create_document_check (st : Store) (cr : CheckResult) : StoredCheck × Store :=
  let stored : StoredCheck := { id := st.nextId, created_at := st.clock, result := cr }
  (stored, { st with checks := st.checks ++ [stored], nextId := st.nextId + 1, clock := st.clock + 1 })

/-- How an API request terminates: a successful JSON response, an
`HTTPException`/request-validation rejection with a 4xx status code, or
an exception that escapes the handler and surfaces as a 500. -/
inductive ApiOutcome (α : Type) where
  | ok (a : α)
  | clientError (status : Nat)
  | serverError
deriving DecidableEq

/-! ## POST /api/check/{website_id} (src/main.py lines 146-195) -/

/-- src/main.py lines 146-195, `run_check`: look up the website by id
(404 `HTTPException` if absent — the store is untouched), run the probe
against its URL with its keyword list, build a `CheckResult` from the
probe locals, persist it via `create_document`, and return the persisted
result. The outcome of the single outbound request is the `outcome`
parameter; exactly one probe outcome is consumed per invocation. -/
def run_check (st : Store) (website_id : String) (outcome : ProbeOutcome) :
    ApiOutcome StoredCheck × Store :=
  match st.websites.find? (fun w => w.id == website_id) with
  | none => (.clientError 404, st)
  | some w =>
      let pr := runProbe w.keywords outcome
      let cr : CheckResult :=
        { website_id := website_id
          status_code := pr.status_code
          is_up := pr.is_up
          response_time_ms := pr.response_time_ms
          keyword_matches := pr.kw_matches
          error := pr.error }
      let (stored, st2) := create_document_check st cr
      (.ok stored, st2)

/-! ## pymongo cursor semantics used by the read endpoints -/

/-- `created_at` descending — the sort order passed to
`.sort("created_at", -1)`. -/
def createdDesc (a b : StoredCheck) : Prop := b.created_at ≤ a.created_at

instance : DecidableRel createdDesc := fun a b => Nat.decLe b.created_at a.created_at

instance : IsTotal StoredCheck createdDesc :=
  ⟨fun a b => Nat.le_total b.created_at a.created_at⟩

instance : IsTrans StoredCheck createdDesc :=
  ⟨fun _ _ _ h1 h2 => Nat.le_trans h2 h1⟩

/-- The `checkresult` collection sorted by `created_at` descending. -/
def sortDesc (checks : List StoredCheck) : List StoredCheck :=
  List.insertionSort createdDesc checks

/-- pymongo `cursor.limit(n)`: a limit of 0 is equivalent to no limit;
a negative limit returns at most the absolute value. -/
def mongoLimit (n : Int) (xs : List StoredCheck) : List StoredCheck :=
  if n = 0 then xs else xs.take n.natAbs

/-! ## GET /api/checks/latest (src/main.py lines 198-217) -/

/-- src/main.py line 200: the documents selected by
`filt = {"website_id": website_id} if website_id else {}` — by Python
truthiness an absent OR empty-string `website_id` yields no filter. -/
def latestFilter (st : Store) (website_id : Option String) : List StoredCheck :=
  match website_id with
  | some w => if w = "" then st.checks
              else st.checks.filter (fun c => c.result.website_id == w)
  | none => st.checks

/-- src/main.py lines 198-217, `latest_checks`:
`find(filt).sort("created_at", -1).limit(limit)`. -/
def latest_checks (st : Store) (limit : Int) (website_id : Option String) :
    List StoredCheck :=
  mongoLimit limit (sortDesc (latestFilter st website_id))

/-- The FastAPI default for the `limit` query parameter of
`GET /api/checks/latest` (src/main.py line 199: `limit: int = 20`). -/
def latest_checks_default (st : Store) (website_id : Option String) :
    List StoredCheck :=
  latest_checks st 20 website_id

/-! ## GET /api/summary (src/main.py lines 220-238) -/

/-- The JSON object returned by `summary`. -/
structure SummaryOut where
  total_sites : Nat
  total_categories : Nat
  recent_checks : Nat
  up : Nat
  down : Nat
  avg_response_time_ms : Option Nat
deriving DecidableEq

/-- The window `recent` of src/main.py line 224:
`db["checkresult"].find().sort("created_at", -1).limit(200)`. -/
def recentWindow (st : Store) : List StoredCheck :=
  mongoLimit 200 (sortDesc st.checks)

/-- Line 228's list comprehension
`[r.get("response_time_ms") for r in recent if r.get("response_time_ms")]`:
Python truthiness keeps a value only if it is present AND non-zero. -/
def truthyRts (recent : List StoredCheck) : List Nat :=
  recent.filterMap (fun r =>
    match r.result.response_time_ms with
    | some t => if t = 0 then none else some t
    | none => none)

/-- src/main.py lines 220-238, `summary`. `up` counts truthy `is_up`
(stored as a boolean), `down = len(recent) - up`,
`avg_rt = int(sum(rts)/len(rts))` when `rts` is non-empty — on these
non-negative integers `int` of the true division is the floor,
i.e. `Nat` division. -/
def summary (st : Store) : SummaryOut :=
  let recent := recentWindow st
  let up := (recent.filter (fun r => r.result.is_up)).length
  let rts := truthyRts recent
  { total_sites := st.websites.length
    total_categories := st.categories.length
    recent_checks := recent.length
    up := up
    down := recent.length - up
    avg_response_time_ms :=
      if rts.isEmpty then none else some (rts.sum / rts.length) }

/-! ## POST /api/websites (src/main.py lines 52-58 and 111-123) -/

/-- The JSON body of a `POST /api/websites` request, field for field;
`none` models an omitted field. -/
structure WebsiteRequest where
  name : String
  url : String
  category_id : Option String
  keywords : Option (List String)
  interval_seconds : Option Int
  is_active : Option Bool
deriving DecidableEq

/-- The request model `WebsiteIn` of src/main.py lines 52-58 after
FastAPI/pydantic validation. Note that this model puts NO length
constraint on `name` (`name: str`), unlike `schemas.Website`. -/
structure WebsiteIn where
  name : String
  url : String
  category_id : Option String
  keywords : List String
  interval_seconds : Int
  is_active : Bool
deriving DecidableEq

/-- FastAPI request validation against `WebsiteIn` (src/main.py lines
52-58): `interval_seconds` is `Field(300, ge=30, le=86400)` — a provided
value outside [30, 86400] is rejected with a 422 request-validation
error before the handler runs; an omitted value defaults to 300
(defaults are not re-validated). `keywords` defaults to `[]`,
`is_active` to `True`; `name` is only required to be a string. -/
def websiteInValidate (p : WebsiteRequest) : Except Nat WebsiteIn :=
  match p.interval_seconds with
  | some v =>
      if 30 ≤ v ∧ v ≤ 86400 then
        .ok { name := p.name, url := p.url, category_id := p.category_id
              keywords := p.keywords.getD [], interval_seconds := v
              is_active := p.is_active.getD true }
      else .error 422
  | none =>
      .ok { name := p.name, url := p.url, category_id := p.category_id
            keywords := p.keywords.getD [], interval_seconds := 300
            is_active := p.is_active.getD true }

/-- src/schemas.py lines 20-26, `Website` validation: `name` must have
2-150 characters and `interval_seconds` must lie in [30, 86400]. -/
def websiteSchemaOk (m : WebsiteIn) : Bool :=
  decide (2 ≤ m.name.length ∧ m.name.length ≤ 150 ∧
          30 ≤ m.interval_seconds ∧ m.interval_seconds ≤ 86400)

/-- Modelled from the spec: `database.create_document` for the
`"website"` collection (`database.py` is not under src/). Per spec §2
the store assigns a unique identifier on creation; identifiers are
modelled as the decimal rendering of the store's id counter. -/
def create_document_website (st : Store) (m : WebsiteIn) : String × Store :=
  let newId := toString st.nextId
  (newId,
   { st with
     websites := st.websites ++
       [{ id := newId, name := m.name, url := m.url
          category_id := m.category_id, keywords := m.keywords
          interval_seconds := m.interval_seconds, is_active := m.is_active }]
     nextId := st.nextId + 1 })

/-- The response model `WebsiteOut` (src/main.py lines 60-61). -/
structure WebsiteOut where
  id : String
  name : String
  url : String
  category_id : Option String
  keywords : List String
  interval_seconds : Int
  is_active : Bool
deriving DecidableEq

/-- src/main.py lines 111-123, `create_website`: the request body is
validated against `WebsiteIn`; inside the handler,
`WebsiteSchema(**data)` (line 121) re-runs the stricter schemas.py
validation — a pydantic `ValidationError` raised there is NOT an
`HTTPException`, escapes the handler uncaught, and surfaces as a 500
server error (and nothing is persisted); otherwise the document is
persisted and echoed back with the assigned id. -/
def create_website (st : Store) (p : WebsiteRequest) : ApiOutcome WebsiteOut × Store :=
  match websiteInValidate p with
  | .error c => (.clientError c, st)
  | .ok m =>
      if websiteSchemaOk m then
        let (newId, st2) := create_document_website st m
        (.ok { id := newId, name := m.name, url := m.url
               category_id := m.category_id, keywords := m.keywords
               interval_seconds := m.interval_seconds, is_active := m.is_active },
         st2)
      else (.serverError, st)

/-! ## Concrete fixtures used to instantiate the theorems -/

/-- A sample stored website. -/
def siteW1 : Website :=
  { id := "w1", name := "Example", url := "https://example.com"
    category_id := none, keywords := ["Welcome"]
    interval_seconds := 300, is_active := true }

/-- A store holding just `siteW1`. -/
def store1 : Store :=
  { categories := [], websites := [siteW1], checks := [], nextId := 7, clock := 3 }

/-- An empty store. -/
def store0 : Store :=
  { categories := [], websites := [], checks := [], nextId := 0, clock := 0 }

/-! ## Helper lemmas -/

/-- A string whose character list is empty is the empty string. -/
theorem eq_empty_of_data_nil {s : String} (h : s.data = []) : s = "" := by
  cases s with
  | mk d => cases h; rfl

/-- Lowercasing a non-empty string yields a non-empty string. -/
theorem pyLower_ne_empty {s : String} (h : s ≠ "") : pyLower s ≠ "" := by
  intro he
  apply h
  apply eq_empty_of_data_nil
  have hd : (pyLower s).data = [] := by rw [he]
  simpa [pyLower] using hd

/-- A non-empty needle is never a Python substring of `""`. -/
theorem pyIn_empty_hay {kw : String} (h : kw ≠ "") : pyIn kw "" = false := by
  rw [pyIn, decide_eq_false_iff_not]
  intro hinf
  have h0 : ("" : String).data = ([] : List Char) := rfl
  rw [h0] at hinf
  exact h (eq_empty_of_data_nil (List.infix_nil.mp hinf))

/-- The check-result document `run_check` builds and persists for a
website with keyword list `kws`, given the probe outcome. -/
def mkStored (st : Store) (wid : String) (kws : List String)
    (outcome : ProbeOutcome) : StoredCheck :=
  { id := st.nextId, created_at := st.clock
    result := { website_id := wid
                status_code := (runProbe kws outcome).status_code
                is_up := (runProbe kws outcome).is_up
                response_time_ms := (runProbe kws outcome).response_time_ms
                keyword_matches := (runProbe kws outcome).kw_matches
                error := (runProbe kws outcome).error } }

/-- `run_check` on a missing website id: 404, store untouched. -/
theorem run_check_not_found {st : Store} {wid : String}
    (hfind : st.websites.find? (fun x => x.id == wid) = none)
    (outcome : ProbeOutcome) :
    run_check st wid outcome = (.clientError 404, st) := by
  unfold run_check
  rw [hfind]

/-- `run_check` on a present website id: persist exactly one new
check-result document and return it. -/
theorem run_check_found {st : Store} {wid : String} {w : Website}
    (hfind : st.websites.find? (fun x => x.id == wid) = some w)
    (outcome : ProbeOutcome) :
    run_check st wid outcome =
      (.ok (mkStored st wid w.keywords outcome),
       { st with checks := st.checks ++ [mkStored st wid w.keywords outcome]
                 nextId := st.nextId + 1, clock := st.clock + 1 }) := by
  unfold run_check
  rw [hfind]
  rfl

/-! ## C1 -/

/-- C1: for every probe in which the target URL responds with status
code `S`, the persisted CheckResult has `is_up = true` iff
`200 ≤ S < 400`, and `status_code = S`. -/
theorem C1_status_classification (st : Store) (wid : String) (w : Website)
    (hfind : st.websites.find? (fun x => x.id == wid) = some w)
    (s : Nat) (body : String) (ms : Nat) :
    ∃ sc st2, run_check st wid (.response s body ms) = (.ok sc, st2) ∧
      sc.result.status_code = some s ∧
      (sc.result.is_up = true ↔ (200 ≤ s ∧ s < 400)) := by
  refine ⟨_, _, run_check_found hfind _, rfl, ?_⟩
  simp [mkStored, runProbe]

/-- C1 instantiated: a 503 response is classified as down with its
status code recorded. -/
theorem C1_status_classification_witness :
    ∃ sc st2, run_check store1 "w1" (.response 503 "oops" 12) = (.ok sc, st2) ∧
      sc.result.status_code = some 503 ∧
      (sc.result.is_up = true ↔ (200 ≤ 503 ∧ 503 < 400)) :=
  C1_status_classification store1 "w1" siteW1 rfl 503 "oops" 12

/-! ## C2 -/

/-- C2 is false as stated: on a response with status code 404 the
keyword scan is skipped (`Response.__bool__` is `status_code < 400`, so
`resp and resp.text` is falsy and `content = ""`), although the
non-empty keyword is a case-insensitive substring of the body. -/
theorem C2_counterexample :
    (runProbe ["Error"] (.response 404 "Error occurred" 7)).kw_matches = [] ∧
    ("Error" : String) ≠ "" ∧
    pyIn (pyLower "Error") (pyLower "Error occurred") = true := by
  exact ⟨rfl, by decide, rfl⟩

/-- C2 (amended): for probes whose response has a status code below
400, a keyword appears in `keyword_matches` iff it is non-empty and its
lowercased form is a substring of the lowercased body; for responses
with status code ≥ 400 no keyword is matched at all. Matches keep the
input order and duplicates (the output is a filter of the input
list). -/
theorem C2_keyword_matching (keywords : List String) (s : Nat)
    (body : String) (ms : Nat) :
    (runProbe keywords (.response s body ms)).kw_matches =
      keywords.filter
        (fun kw => decide (s < 400) && kw ≠ "" && pyIn (pyLower kw) (pyLower body)) := by
  have hL : (runProbe keywords (.response s body ms)).kw_matches =
      keywords.filter (fun kw => kw ≠ "" &&
        pyIn (pyLower kw) (if respTruthy s && body ≠ "" then pyLower body else "")) := rfl
  rw [hL]
  apply List.filter_congr
  intro kw _
  by_cases hkw : kw = ""
  · subst hkw
    simp
  · by_cases hs : s < 400
    · by_cases hb : body = ""
      · subst hb
        have h1 : pyIn (pyLower kw) "" = false :=
          pyIn_empty_hay (pyLower_ne_empty hkw)
        have h2 : pyLower "" = "" := rfl
        simp [respTruthy, hs, hkw, h1, h2]
      · simp [respTruthy, hs, hkw, hb]
    · have h1 : pyIn (pyLower kw) "" = false :=
        pyIn_empty_hay (pyLower_ne_empty hkw)
      simp [respTruthy, hs, hkw, h1]

/-! ## C3 -/

/-- C3: a probe that raises before any response yields a persisted
CheckResult with no status code, `is_up = false`, empty keyword
matches, and an error string of at most 500 characters; the request
returns the CheckResult, not an API-level error. -/
theorem C3_probe_failure (st : Store) (wid : String) (w : Website)
    (hfind : st.websites.find? (fun x => x.id == wid) = some w)
    (msg : String) :
    ∃ sc st2, run_check st wid (.failure msg) = (.ok sc, st2) ∧
      sc.result.status_code = none ∧
      sc.result.is_up = false ∧
      sc.result.keyword_matches = [] ∧
      sc.result.error = some (pyTake msg 500) ∧
      (pyTake msg 500).length ≤ 500 := by
  refine ⟨_, _, run_check_found hfind _, rfl, rfl, rfl, rfl, ?_⟩
  show (msg.data.take 500).length ≤ 500
  exact List.length_take_le 500 msg.data

/-- C3 instantiated: a connection-refused probe against the sample
store. -/
theorem C3_probe_failure_witness :
    ∃ sc st2,
      run_check store1 "w1" (.failure "Connection refused") = (.ok sc, st2) ∧
      sc.result.status_code = none ∧
      sc.result.is_up = false ∧
      sc.result.keyword_matches = [] ∧
      sc.result.error = some (pyTake "Connection refused" 500) ∧
      (pyTake "Connection refused" 500).length ≤ 500 :=
  C3_probe_failure store1 "w1" siteW1 rfl "Connection refused"

/-! ## C4 -/

/-- C4: every persisted CheckResult satisfies the invariant —
`is_up = true` implies a status code in [200, 400) is present, and a
present error implies `is_up = false` and no status code. -/
theorem C4_invariant (st : Store) (wid : String) (outcome : ProbeOutcome)
    (sc : StoredCheck) (st2 : Store)
    (h : run_check st wid outcome = (.ok sc, st2)) :
    (sc.result.is_up = true →
       ∃ s, sc.result.status_code = some s ∧ 200 ≤ s ∧ s < 400) ∧
    (sc.result.error ≠ none →
       sc.result.is_up = false ∧ sc.result.status_code = none) := by
  cases hfind : st.websites.find? (fun x => x.id == wid) with
  | none =>
      rw [run_check_not_found hfind] at h
      simp at h
  | some w =>
      rw [run_check_found hfind] at h
      have hsc : sc = mkStored st wid w.keywords outcome := by
        have := congrArg Prod.fst h
        simpa using this.symm
      subst hsc
      cases outcome with
      | response s body ms =>
          constructor
          · intro hup
            have hdec : 200 ≤ s ∧ s < 400 := by
              have : decide (200 ≤ s ∧ s < 400) = true := hup
              exact of_decide_eq_true this
            exact ⟨s, rfl, hdec.1, hdec.2⟩
          · intro herr
            exact absurd rfl herr
      | failure msg =>
          constructor
          · intro hup
            exact absurd hup (by simp [mkStored, runProbe])
          · intro _
            exact ⟨rfl, rfl⟩

/-- The document persisted by probing `siteW1` with a 200 "hi"
response. -/
def storedHi : StoredCheck :=
  mkStored store1 "w1" siteW1.keywords (.response 200 "hi" 1)

/-- C4 instantiated at a concrete successful check. -/
theorem C4_invariant_witness :
    ((storedHi.result.is_up = true →
       ∃ s, storedHi.result.status_code = some s ∧ 200 ≤ s ∧ s < 400) ∧
     (storedHi.result.error ≠ none →
       storedHi.result.is_up = false ∧
       storedHi.result.status_code = none)) :=
  C4_invariant store1 "w1" (.response 200 "hi" 1) storedHi
    (run_check store1 "w1" (.response 200 "hi" 1)).2 rfl

/-! ## mongoLimit lemmas -/

/-- `mongoLimit` preserves descending sortedness. -/
theorem mongoLimit_sorted (n : Int) (l : List StoredCheck)
    (h : List.Sorted createdDesc l) :
    List.Sorted createdDesc (mongoLimit n l) := by
  unfold mongoLimit
  split
  · exact h
  · exact List.Pairwise.sublist (List.take_sublist _ _) h

/-- A non-zero `mongoLimit` caps the length at the absolute value. -/
theorem mongoLimit_length (n : Int) (hn : n ≠ 0) (l : List StoredCheck) :
    (mongoLimit n l).length ≤ n.natAbs := by
  unfold mongoLimit
  rw [if_neg hn]
  exact List.length_take_le _ _

/-- `mongoLimit` only returns elements of its input. -/
theorem mongoLimit_subset (n : Int) (l : List StoredCheck) :
    mongoLimit n l ⊆ l := by
  unfold mongoLimit
  split
  · exact fun _ h => h
  · exact (List.take_sublist _ _).subset

/-! ## C5 -/

/-- A stored up-check whose probe completed in under a millisecond, so
`int(duration)` recorded `response_time_ms = 0`. -/
def zeroRtCheck : StoredCheck :=
  { id := 0, created_at := 0
    result := { website_id := "w1", status_code := some 200, is_up := true
                response_time_ms := some 0, keyword_matches := [], error := none } }

/-- A store whose only check recorded a zero response time. -/
def zeroRtStore : Store :=
  { categories := [], websites := [], checks := [zeroRtCheck], nextId := 1, clock := 1 }

/-- C5 is false as stated: with exactly one check in the window, which
recorded `response_time_ms = 0`, the summary reports
`avg_response_time_ms` absent — the comprehension at src/main.py line
228 keeps only truthy values, so a recorded 0 is dropped — although a
result in the window did record a response time. -/
theorem C5_counterexample :
    (summary zeroRtStore).avg_response_time_ms = none ∧
    recentWindow zeroRtStore = [zeroRtCheck] ∧
    zeroRtCheck.result.response_time_ms = some 0 :=
  ⟨rfl, rfl, rfl⟩

/-- The Scenario E store: two up checks at 100 ms and 200 ms and one
down check. -/
def scenESt : Store :=
  { categories := []
    websites := [siteW1]
    checks :=
      [ { id := 0, created_at := 0
          result := { website_id := "w1", status_code := some 200, is_up := true
                      response_time_ms := some 100, keyword_matches := []
                      error := none } }
      , { id := 1, created_at := 1
          result := { website_id := "w1", status_code := some 200, is_up := true
                      response_time_ms := some 200, keyword_matches := []
                      error := none } }
      , { id := 2, created_at := 2
          result := { website_id := "w1", status_code := none, is_up := false
                      response_time_ms := none, keyword_matches := []
                      error := some "refused" } } ]
    nextId := 3, clock := 3 }

/-- C5 (amended): over the most recent 200 results, `up` counts the
results with `is_up` true and `down` the remaining ones;
`avg_response_time_ms` is the floored integer average of the NON-ZERO
recorded response times and is absent iff no result in the window
recorded a non-zero response time (a recorded 0 ms is dropped by Python
truthiness). Scenario E (2 up at 100 ms and 200 ms, 1 down) still
returns up 2, down 1, average 150. -/
theorem C5_summary (st : Store) :
    ((summary st).up = ((recentWindow st).filter (fun r => r.result.is_up)).length ∧
     (summary st).down = (recentWindow st).length - (summary st).up ∧
     ((summary st).avg_response_time_ms = none ↔ truthyRts (recentWindow st) = []) ∧
     (∀ v, (summary st).avg_response_time_ms = some v →
        v = (truthyRts (recentWindow st)).sum / (truthyRts (recentWindow st)).length)) ∧
    ((summary scenESt).up = 2 ∧ (summary scenESt).down = 1 ∧
     (summary scenESt).avg_response_time_ms = some 150) := by
  constructor
  · refine ⟨rfl, rfl, ?_, ?_⟩
    · by_cases h : truthyRts (recentWindow st) = []
      · simp [summary, h]
      · simp [summary, h]
    · intro v hv
      have h2 : (if (truthyRts (recentWindow st)).isEmpty then (none : Option Nat)
          else some ((truthyRts (recentWindow st)).sum /
                     (truthyRts (recentWindow st)).length)) = some v := hv
      split at h2
      · exact absurd h2 (by simp)
      · exact (Option.some.inj h2).symm
  · exact ⟨rfl, rfl, rfl⟩

/-- C5 amended theorem instantiated at the Scenario E store: the
average 150 is the floored mean of the window's non-zero response
times. -/
theorem C5_summary_witness :
    150 = (truthyRts (recentWindow scenESt)).sum /
          (truthyRts (recentWindow scenESt)).length :=
  (C5_summary scenESt).1.2.2.2 150 rfl

/-! ## C6 -/

/-- The validated request model `WebsiteIn` produced from a
`WebsiteRequest` whose `interval_seconds` resolved to `iv`. -/
def mkWebsiteIn (p : WebsiteRequest) (iv : Int) : WebsiteIn :=
  { name := p.name, url := p.url, category_id := p.category_id
    keywords := p.keywords.getD [], interval_seconds := iv
    is_active := p.is_active.getD true }

/-- `create_website` on a request that passes both validation layers:
the document is persisted with the store-assigned id and echoed back. -/
theorem create_website_ok (st : Store) (p : WebsiteRequest) (m : WebsiteIn)
    (hv : websiteInValidate p = .ok m) (hok : websiteSchemaOk m = true) :
    create_website st p =
      (.ok { id := toString st.nextId, name := m.name, url := m.url
             category_id := m.category_id, keywords := m.keywords
             interval_seconds := m.interval_seconds, is_active := m.is_active },
       (create_document_website st m).2) := by
  unfold create_website
  rw [hv]
  simp only [hok, if_true]
  rfl

/-- C6: website creation rejects a provided `interval_seconds` of 29 or
86401 with a 422 validation error (store unchanged), accepts 30 and
86400, and defaults an omitted `interval_seconds` to 300. -/
theorem C6_interval_bounds :
    (∀ st name url cid kw act,
       create_website st ⟨name, url, cid, kw, some 29, act⟩ = (.clientError 422, st)) ∧
    (∀ st name url cid kw act,
       create_website st ⟨name, url, cid, kw, some 86401, act⟩ = (.clientError 422, st)) ∧
    (∀ (st : Store) (name url : String) cid kw act,
       2 ≤ name.length → name.length ≤ 150 →
       ∃ w st2, create_website st ⟨name, url, cid, kw, some 30, act⟩ = (.ok w, st2) ∧
         w.interval_seconds = 30) ∧
    (∀ (st : Store) (name url : String) cid kw act,
       2 ≤ name.length → name.length ≤ 150 →
       ∃ w st2, create_website st ⟨name, url, cid, kw, some 86400, act⟩ = (.ok w, st2) ∧
         w.interval_seconds = 86400) ∧
    (∀ (st : Store) (name url : String) cid kw act,
       2 ≤ name.length → name.length ≤ 150 →
       ∃ w st2, create_website st ⟨name, url, cid, kw, none, act⟩ = (.ok w, st2) ∧
         w.interval_seconds = 300) := by
  refine ⟨?_, ?_, ?_, ?_, ?_⟩
  · intro st name url cid kw act
    simp [create_website, websiteInValidate]
  · intro st name url cid kw act
    simp [create_website, websiteInValidate]
  · intro st name url cid kw act h1 h2
    have hok : websiteSchemaOk (mkWebsiteIn ⟨name, url, cid, kw, some 30, act⟩ 30) = true := by
      simp [websiteSchemaOk, mkWebsiteIn]
      exact ⟨h1, h2⟩
    exact ⟨_, _, create_website_ok st ⟨name, url, cid, kw, some 30, act⟩
      (mkWebsiteIn ⟨name, url, cid, kw, some 30, act⟩ 30) rfl hok, rfl⟩
  · intro st name url cid kw act h1 h2
    have hok : websiteSchemaOk (mkWebsiteIn ⟨name, url, cid, kw, some 86400, act⟩ 86400) = true := by
      simp [websiteSchemaOk, mkWebsiteIn]
      exact ⟨h1, h2⟩
    exact ⟨_, _, create_website_ok st ⟨name, url, cid, kw, some 86400, act⟩
      (mkWebsiteIn ⟨name, url, cid, kw, some 86400, act⟩ 86400) rfl hok, rfl⟩
  · intro st name url cid kw act h1 h2
    have hok : websiteSchemaOk (mkWebsiteIn ⟨name, url, cid, kw, none, act⟩ 300) = true := by
      simp [websiteSchemaOk, mkWebsiteIn]
      exact ⟨h1, h2⟩
    exact ⟨_, _, create_website_ok st ⟨name, url, cid, kw, none, act⟩
      (mkWebsiteIn ⟨name, url, cid, kw, none, act⟩ 300) rfl hok, rfl⟩

/-- C6 instantiated: 29 is rejected and 30 accepted for a concrete
request. -/
theorem C6_interval_bounds_witness :
    create_website store0
      ⟨"Example", "https://example.com", none, none, some 29, none⟩ =
      (.clientError 422, store0) ∧
    ∃ w st2, create_website store0
      ⟨"Example", "https://example.com", none, none, some 30, none⟩ =
      (.ok w, st2) ∧ w.interval_seconds = 30 :=
  ⟨C6_interval_bounds.1 store0 "Example" "https://example.com" none none none,
   C6_interval_bounds.2.2.1 store0 "Example" "https://example.com" none none none
     (by decide) (by decide)⟩

/-! ## C7 -/

/-- C7: checking an id that resolves to no stored website fails with
404 and leaves the store unchanged (nothing is persisted); checking a
stored website persists exactly one CheckResult — the check collection
grows by exactly that document — and returns the persisted document. -/
theorem C7_check_endpoint (st : Store) (wid : String) (outcome : ProbeOutcome) :
    (st.websites.find? (fun x => x.id == wid) = none →
       run_check st wid outcome = (.clientError 404, st)) ∧
    (∀ w, st.websites.find? (fun x => x.id == wid) = some w →
       ∃ sc, run_check st wid outcome =
         (.ok sc,
          { st with checks := st.checks ++ [sc]
                    nextId := st.nextId + 1, clock := st.clock + 1 })) := by
  constructor
  · intro h
    exact run_check_not_found h outcome
  · intro w h
    exact ⟨_, run_check_found h outcome⟩

/-- C7 instantiated: the unknown id "zzz" 404s with the store
unchanged; probing the stored website appends exactly one document. -/
theorem C7_check_endpoint_witness :
    run_check store1 "zzz" (.failure "x") = (.clientError 404, store1) ∧
    ∃ sc, run_check store1 "w1" (.response 204 "" 3) =
      (.ok sc, { store1 with checks := store1.checks ++ [sc]
                             nextId := store1.nextId + 1
                             clock := store1.clock + 1 }) :=
  ⟨(C7_check_endpoint store1 "zzz" (.failure "x")).1 rfl,
   (C7_check_endpoint store1 "w1" (.response 204 "" 3)).2 siteW1 rfl⟩

/-! ## C8 -/

/-- `create_website` on a request that passes the lax request model but
fails the schemas.py validation: the pydantic `ValidationError` raised
at src/main.py line 121 is uncaught, so the request ends as a 500
server error and nothing is persisted. -/
theorem create_website_schema_reject (st : Store) (p : WebsiteRequest)
    (m : WebsiteIn) (hv : websiteInValidate p = .ok m)
    (hok : websiteSchemaOk m = false) :
    create_website st p = (.serverError, st) := by
  unfold create_website
  rw [hv]
  simp only [hok]
  rfl

set_option maxRecDepth 4000 in
/-- C8: the code evaluated at the claim's failing inputs. A 1-character
or 151-character `name` passes the request model `WebsiteIn` (src/main.py
line 53 has no length constraint), reaches the handler, and the
`WebsiteSchema(**data)` construction at line 121 raises an uncaught
pydantic ValidationError — a 500 server error, not the claimed
4xx-class validation rejection; no website is persisted either way. -/
theorem C8_name_validation_bug (st : Store) (url : String)
    (cid : Option String) (kw : Option (List String)) (act : Option Bool) :
    create_website st ⟨"X", url, cid, kw, none, act⟩ = (.serverError, st) ∧
    create_website st ⟨⟨List.replicate 151 'a'⟩, url, cid, kw, none, act⟩ =
      (.serverError, st) := by
  constructor
  · exact create_website_schema_reject st _
      (mkWebsiteIn ⟨"X", url, cid, kw, none, act⟩ 300) rfl rfl
  · exact create_website_schema_reject st _
      (mkWebsiteIn ⟨⟨List.replicate 151 'a'⟩, url, cid, kw, none, act⟩ 300) rfl rfl

/-! ## C9 -/

/-- A single stored check, attributed to website "w1". -/
def soleCheck : StoredCheck :=
  { id := 0, created_at := 0
    result := { website_id := "w1", status_code := some 200, is_up := true
                response_time_ms := some 5, keyword_matches := [], error := none } }

/-- A store holding exactly `soleCheck`. -/
def soleStore : Store :=
  { categories := [], websites := [], checks := [soleCheck], nextId := 1, clock := 1 }

/-- C9 is false as stated: with `limit=0` the endpoint is not capped at
0 records — pymongo treats a limit of 0 as no limit and returns the
whole collection — and a supplied-but-empty `website_id` does not
restrict the results (Python truthiness skips the filter although the
stored record's `website_id` differs from `""`). -/
theorem C9_counterexample :
    latest_checks soleStore 0 none = [soleCheck] ∧
    latest_checks soleStore 20 (some "") = [soleCheck] ∧
    soleCheck.result.website_id ≠ "" :=
  ⟨rfl, rfl, by decide⟩

/-- The store after two check invocations against `siteW1`. -/
def stD0 : Store :=
  { categories := [], websites := [siteW1], checks := [], nextId := 0, clock := 0 }

/-- State after the first check (a 200 response). -/
def stD1 : Store := (run_check stD0 "w1" (.response 200 "hello" 10)).2

/-- State after the second check (a refused connection). -/
def stD2 : Store := (run_check stD1 "w1" (.failure "refused")).2

/-- The document persisted by the second, most recent invocation. -/
def secondCheck : StoredCheck :=
  mkStored stD1 "w1" siteW1.keywords (.failure "refused")

/-- C9 (amended): `GET /api/checks/latest` returns results ordered by
creation time descending; when a NON-EMPTY `website_id` is supplied
every returned record belongs to it; a NON-ZERO limit caps the count at
its absolute value, while `limit=0` applies no cap (pymongo semantics);
the limit defaults to 20; and with `limit=1` after two check
invocations exactly the single most recently created record is
returned. -/
theorem C9_latest_checks (st : Store) (limit : Int) (wid : Option String) :
    (List.Sorted createdDesc (latest_checks st limit wid) ∧
     (∀ w, wid = some w → w ≠ "" →
        ∀ c ∈ latest_checks st limit wid, c.result.website_id = w) ∧
     (limit ≠ 0 → (latest_checks st limit wid).length ≤ limit.natAbs) ∧
     latest_checks_default st wid = latest_checks st 20 wid) ∧
    latest_checks stD2 1 none = [secondCheck] := by
  constructor
  · refine ⟨?_, ?_, ?_, rfl⟩
    · exact mongoLimit_sorted _ _ (List.sorted_insertionSort _ _)
    · intro w hw hne c hc
      subst hw
      have hfilt : latestFilter st (some w) =
          st.checks.filter (fun x => x.result.website_id == w) := by
        show (if w = "" then st.checks
              else st.checks.filter (fun c => c.result.website_id == w)) =
          st.checks.filter (fun x => x.result.website_id == w)
        rw [if_neg hne]
      have hmem : c ∈ sortDesc (st.checks.filter (fun x => x.result.website_id == w)) := by
        unfold latest_checks at hc
        rw [hfilt] at hc
        exact mongoLimit_subset _ _ hc
      have hmem2 : c ∈ st.checks.filter (fun x => x.result.website_id == w) :=
        (List.perm_insertionSort createdDesc _).mem_iff.mp hmem
      exact eq_of_beq (List.mem_filter.mp hmem2).2
    · intro hn
      exact mongoLimit_length _ hn _
  · rfl

/-- C9 amended theorem instantiated: a limit of 1 caps the sample
store's results at one record, and the record returned for
website_id "w1" belongs to "w1". -/
theorem C9_latest_checks_witness :
    (latest_checks soleStore 1 (some "w1")).length ≤ (1 : Int).natAbs ∧
    soleCheck.result.website_id = "w1" :=
  ⟨(C9_latest_checks soleStore 1 (some "w1")).1.2.2.1 (by decide),
   (C9_latest_checks soleStore 20 (some "w1")).1.2.1 "w1" rfl (by decide)
     soleCheck (by decide)⟩

/-! ## C10 -/

/-- C10: in every store state the summary window holds at most 200
results and every one of them is counted exactly once as up or down:
`up + down = recent_checks`. -/
theorem C10_summary_invariant (st : Store) :
    (summary st).recent_checks ≤ 200 ∧
    (summary st).up + (summary st).down = (summary st).recent_checks := by
  constructor
  · show (recentWindow st).length ≤ 200
    unfold recentWindow
    exact mongoLimit_length 200 (by decide) _
  · show ((recentWindow st).filter (fun r => r.result.is_up)).length +
      ((recentWindow st).length -
       ((recentWindow st).filter (fun r => r.result.is_up)).length) =
      (recentWindow st).length
    exact Nat.add_sub_cancel' (List.length_filter_le _ _)

end Monitor
